import Mathlib

/-!
Shallow embedding of the interactive comparison viewer of the windoosh
repository (src/lib/components/CompareSlider.svelte and
src/lib/stores/imageStore.ts).

Modelling conventions:
- JavaScript numbers are modelled by `ℚ` wherever the code paths under
  study keep them finite, and by `JSNum` (ℚ extended with NaN and the two
  infinities, following IEEE-754 / ECMAScript semantics for the operations
  actually used) where a division by zero can occur, namely in the
  divider-position computation `updateSliderPosition`.
- `String.toLowerCase` of JavaScript is modelled on ASCII via
  `Char.toLower`; every path appearing in the spec's scenarios is ASCII.
- Svelte component-local variables (scale, translateX, translateY,
  sliderPosition, the interaction flags and the pan snapshot) and the
  relevant Svelte stores (originalImageInfo, optimizationResult,
  isProcessing, isLoading, currentOperationId, the two canvas-ready flags)
  are gathered into one record `ViewerState`; each event handler becomes a
  pure function from `ViewerState` (plus the event data it reads) to
  `ViewerState`.
-/

/-- JavaScript number for the divider-position computation: a rational,
NaN, or one of the two infinities. Only the operations the embedded code
uses are defined. -/
inductive JSNum where
  | nan : JSNum
  | posInf : JSNum
  | negInf : JSNum
  | num : ℚ → JSNum
deriving DecidableEq, Repr

/-- JavaScript division of two finite numbers: `a / b` is the rational
quotient when `b ≠ 0`; division by zero yields `+∞`, `-∞` or NaN
according to the sign of the numerator (IEEE-754, as in ECMAScript). -/
def jsDivQ (a b : ℚ) : JSNum :=
  if b ≠ 0 then JSNum.num (a / b)
  else if 0 < a then JSNum.posInf
  else if a < 0 then JSNum.negInf
  else JSNum.nan

/-- JavaScript multiplication of a possibly non-finite number by a finite
constant (the code multiplies the ratio by 100). -/
def jsMul (r : JSNum) (c : ℚ) : JSNum :=
  match r with
  | JSNum.nan => JSNum.nan
  | JSNum.posInf => if 0 < c then JSNum.posInf else if c < 0 then JSNum.negInf else JSNum.nan
  | JSNum.negInf => if 0 < c then JSNum.negInf else if c < 0 then JSNum.posInf else JSNum.nan
  | JSNum.num q => JSNum.num (q * c)

/-- JavaScript `Math.min(a, r)` with `a` finite: NaN propagates, `+∞`
loses against any finite number. -/
def jsMin (a : ℚ) (r : JSNum) : JSNum :=
  match r with
  | JSNum.nan => JSNum.nan
  | JSNum.posInf => JSNum.num a
  | JSNum.negInf => JSNum.negInf
  | JSNum.num q => JSNum.num (min a q)

/-- JavaScript `Math.max(a, r)` with `a` finite: NaN propagates, `-∞`
loses against any finite number. -/
def jsMax (a : ℚ) (r : JSNum) : JSNum :=
  match r with
  | JSNum.nan => JSNum.nan
  | JSNum.posInf => JSNum.posInf
  | JSNum.negInf => JSNum.num a
  | JSNum.num q => JSNum.num (max a q)

/-- The divider-position formula of `updateSliderPosition`
(CompareSlider.svelte, lines 244-249):
`Math.max(0, Math.min(100, ((e.clientX - rect.left) / rect.width) * 100))`,
computed with JavaScript number semantics so that a zero container width
is represented faithfully. -/
def jsSliderPos (pointerScreenX containerLeft containerWidth : ℚ) : JSNum :=
  jsMax 0 (jsMin 100 (jsMul (jsDivQ (pointerScreenX - containerLeft) containerWidth) 100))

/-- Modelled from the spec (section 4.2): the Reveal Controller contract
`position = clamp(((pointerScreenX - containerLeft) / containerWidth) * 100, 0, 100)`,
read over exact rational arithmetic. Used to compare the code's
`updateSliderPosition` against the spec's formula. -/
def setFromPointerSpec (pointerScreenX containerLeft containerWidth : ℚ) : ℚ :=
  max 0 (min 100 ((pointerScreenX - containerLeft) / containerWidth * 100))

/-- Image metadata (imageStore.ts, interface `ImageInfo`). -/
structure ImageInfo where
  width : ℕ
  height : ℕ
  original_size : ℕ
  name : String
deriving DecidableEq, Repr

/-- Optimization result metadata (imageStore.ts, interface
`OptimizationResult`). -/
structure OptimizationResult where
  optimized_size : ℕ
  savings_percent : ℚ
  mime_type : String
  extension : String
deriving DecidableEq, Repr

/-- Combined state of the viewer: the component-local variables of
CompareSlider.svelte together with the stores of imageStore.ts that the
embedded handlers read or write. -/
structure ViewerState where
  sliderPosition : JSNum
  scale : ℚ
  translateX : ℚ
  translateY : ℚ
  isDraggingSlider : Bool
  isPanning : Bool
  panStartX : ℚ
  panStartY : ℚ
  panStartTranslateX : ℚ
  panStartTranslateY : ℚ
  originalImageInfo : Option ImageInfo
  optimizationResult : Option OptimizationResult
  isProcessing : Bool
  isLoading : Bool
  currentOperationId : Option String
  originalCanvasReady : Bool
  optimizedCanvasReady : Bool
deriving DecidableEq, Repr

/-- Initial values of the component variables and stores
(CompareSlider.svelte lines 42-59, imageStore.ts store declarations). -/
def initState : ViewerState :=
  { sliderPosition := JSNum.num 50
    scale := 1
    translateX := 0
    translateY := 0
    isDraggingSlider := false
    isPanning := false
    panStartX := 0
    panStartY := 0
    panStartTranslateX := 0
    panStartTranslateY := 0
    originalImageInfo := none
    optimizationResult := none
    isProcessing := false
    isLoading := false
    currentOperationId := none
    originalCanvasReady := false
    optimizedCanvasReady := false }

/-- The zoom core of `handleWheel` (CompareSlider.svelte, lines 259-276),
after the early return: `mouseX`/`mouseY` are the cursor coordinates
relative to the container (`e.clientX - rect.left`, `e.clientY - rect.top`)
and `deltaY` is the wheel delta whose sign selects the direction. -/
def applyZoom (s : ViewerState) (mouseX mouseY deltaY : ℚ) : ViewerState :=
  let contentMouseX := (mouseX - s.translateX) / s.scale
  let contentMouseY := (mouseY - s.translateY) / s.scale
  let zoomIntensity : ℚ := 1/10
  let delta : ℚ := if deltaY < 0 then 1 else -1
  let newScale := max (1/10) (min (s.scale + delta * zoomIntensity * s.scale) 50)
  { s with
      translateX := mouseX - contentMouseX * newScale
      translateY := mouseY - contentMouseY * newScale
      scale := newScale }

/-- `handleWheel` (CompareSlider.svelte, lines 255-277): no-op unless the
original image is loaded (the guard `if (!container || !$originalImageInfo)
return;` — the container reference is always bound while the component is
mounted), otherwise the cursor-anchored zoom. -/
def handleWheel (s : ViewerState) (mouseX mouseY deltaY : ℚ) : ViewerState :=
  if s.originalImageInfo.isSome then applyZoom s mouseX mouseY deltaY else s

/-- Folds a sequence of wheel events (mouseX, mouseY, deltaY) over the
state, left to right, as the event loop delivers them. -/
def runWheelEvents (s : ViewerState) (evs : List (ℚ × ℚ × ℚ)) : ViewerState :=
  evs.foldl (fun st e => handleWheel st e.1 e.2.1 e.2.2) s

/-- `updateSliderPosition` (CompareSlider.svelte, lines 244-249) as a state
transformer: writes the clamped ratio into `sliderPosition`. -/
def updateSliderPosition (s : ViewerState) (clientX rectLeft rectWidth : ℚ) : ViewerState :=
  { s with sliderPosition := jsSliderPos clientX rectLeft rectWidth }

/-- `handleMouseDown` (CompareSlider.svelte, lines 211-227):
`onSliderHandle` is the truth of `target.closest(".slider-handle")`; the
divider branch starts a divider drag and updates the position, the pan
branch requires both `$originalImageInfo` and `$optimizationResult` to be
non-null, and otherwise the state is unchanged. -/
def handleMouseDown (s : ViewerState) (onSliderHandle : Bool)
    (clientX clientY rectLeft rectWidth : ℚ) : ViewerState :=
  if onSliderHandle then
    { s with
        isDraggingSlider := true
        sliderPosition := jsSliderPos clientX rectLeft rectWidth }
  else if s.originalImageInfo.isSome && s.optimizationResult.isSome then
    { s with
        isPanning := true
        panStartX := clientX
        panStartY := clientY
        panStartTranslateX := s.translateX
        panStartTranslateY := s.translateY }
  else s

/-- `resetView` (CompareSlider.svelte, lines 288-293): identity transform
and centered divider. -/
def resetView (s : ViewerState) : ViewerState :=
  { s with
      scale := 1
      translateX := 0
      translateY := 0
      sliderPosition := JSNum.num 50 }

/-- `handleContextMenu` (CompareSlider.svelte, lines 283-286): calls
`e.preventDefault()` and `resetView()`. The Bool records that the default
context menu was suppressed. -/
def handleContextMenu (s : ViewerState) : ViewerState × Bool :=
  (resetView s, true)

/-- `resetStores` (imageStore.ts, lines 139-147): clears the image stores
and status flags. It does not touch the component-local transform or the
divider position. -/
def resetStores (s : ViewerState) : ViewerState :=
  { s with
      originalImageInfo := none
      optimizationResult := none
      isProcessing := false
      isLoading := false
      currentOperationId := none
      originalCanvasReady := false
      optimizedCanvasReady := false }

/-- Allow-list of image extensions (CompareSlider.svelte, line 68). -/
def validExtensions : List String :=
  [".png", ".jpg", ".jpeg", ".webp", ".gif", ".bmp"]

/-- JavaScript `String.prototype.toLowerCase`, restricted to ASCII:
lower-cases every character of the string. -/
def jsToLowerCase (s : String) : String :=
  String.mk (s.data.map Char.toLower)

/-- JavaScript `String.prototype.endsWith`: `t` is a suffix of `s`
(character-wise; the embedded paths are ASCII, where characters and UTF-16
code units coincide). -/
def jsEndsWith (s t : String) : Bool :=
  decide (t.data = s.data.drop (s.data.length - t.data.length))

/-- `isValidImagePath` (CompareSlider.svelte, lines 70-73): lower-cases the
path and tests whether some allow-listed extension is a suffix. -/
def isValidImagePath (path : String) : Bool :=
  validExtensions.any (fun ext => jsEndsWith (jsToLowerCase path) ext)

/-- The `tauri://drag-drop` listener body (CompareSlider.svelte, lines
90-103): reads `paths[0]` of a non-empty payload and forwards it to the
`droppedFile` store when valid. The result is the path forwarded (none if
nothing is forwarded). -/
def handleDrop (paths : List String) : Option String :=
  match paths with
  | [] => none
  | filePath :: _ => if isValidImagePath filePath then some filePath else none

/-- Modelled from the spec (section 4.5 as read by the claim): the first
path in the list whose extension is allow-listed. Used to compare the
code's drop handling against the claim's words. -/
def firstValidPath (paths : List String) : Option String :=
  paths.find? (fun p => isValidImagePath p)

/-- Example state with both surfaces loaded and a non-default transform
and divider position. -/
def exLoadedState : ViewerState :=
  { initState with
      scale := 2
      translateX := 3
      translateY := 4
      sliderPosition := JSNum.num 70
      originalImageInfo :=
        some { width := 800, height := 600, original_size := 1000, name := "a.png" }
      optimizationResult :=
        some { optimized_size := 500, savings_percent := 50,
               mime_type := "image/png", extension := "png" } }

/-- Example state with the original surface loaded but the processed
surface absent. -/
def exOriginalOnlyState : ViewerState :=
  { initState with
      originalImageInfo :=
        some { width := 800, height := 600, original_size := 1000, name := "a.png" } }

/-- Example state at the upper zoom bound, with a non-trivial translate. -/
def exUpperBoundState : ViewerState :=
  { initState with
      scale := 50
      translateX := 3
      translateY := 4 }

/-- C1: for every state and cursor position, `applyZoom` keeps the content
point under the cursor at the same screen coordinate: with
`contentX = (cursorScreenX - translateX) / scale`, the recomputed
translate satisfies `contentX * newScale + translateX' = cursorScreenX`
(and analogously for Y); and from `scale = 1`, `translate = (0,0)`,
zooming in at screen point `(100,100)` with intensity `0.1` yields
`newScale = 1.1`, `translateX = -10`, `translateY = -10`. -/
theorem applyZoom_keeps_cursor_fixed :
    (∀ (s : ViewerState) (mouseX mouseY deltaY : ℚ), s.scale ≠ 0 →
        ((mouseX - s.translateX) / s.scale) * (applyZoom s mouseX mouseY deltaY).scale
            + (applyZoom s mouseX mouseY deltaY).translateX = mouseX ∧
        ((mouseY - s.translateY) / s.scale) * (applyZoom s mouseX mouseY deltaY).scale
            + (applyZoom s mouseX mouseY deltaY).translateY = mouseY) ∧
    (applyZoom initState 100 100 (-1)).scale = 11/10 ∧
    (applyZoom initState 100 100 (-1)).translateX = -10 ∧
    (applyZoom initState 100 100 (-1)).translateY = -10 := by
  refine ⟨?_, ?_, ?_, ?_⟩
  · intro s mouseX mouseY deltaY h
    constructor <;> (simp only [applyZoom]; ring)
  · norm_num [applyZoom, initState]
  · norm_num [applyZoom, initState]
  · norm_num [applyZoom, initState]

/-- Witness for C1: the fixed-point identity evaluated at the spec's
scenario (`scale = 1`, `translate = (0,0)`, zoom-in at `(100,100)`). -/
theorem applyZoom_keeps_cursor_fixed_witness :
    ((100 : ℚ) - initState.translateX) / initState.scale
        * (applyZoom initState 100 100 (-1)).scale
        + (applyZoom initState 100 100 (-1)).translateX = 100 :=
  (applyZoom_keeps_cursor_fixed.1 initState 100 100 (-1) (by norm_num [initState])).1

theorem handleWheel_scale_mem (s : ViewerState) (x y d : ℚ)
    (h1 : 1/10 ≤ s.scale) (h2 : s.scale ≤ 50) :
    1/10 ≤ (handleWheel s x y d).scale ∧ (handleWheel s x y d).scale ≤ 50 := by
  rw [handleWheel]
  split
  · simp only [applyZoom]
    exact ⟨le_max_left _ _, max_le (by norm_num) (min_le_right _ _)⟩
  · exact ⟨h1, h2⟩

theorem runWheelEvents_scale_mem (evs : List (ℚ × ℚ × ℚ)) (s : ViewerState)
    (h1 : 1/10 ≤ s.scale) (h2 : s.scale ≤ 50) :
    1/10 ≤ (runWheelEvents s evs).scale ∧ (runWheelEvents s evs).scale ≤ 50 := by
  induction evs generalizing s with
  | nil => exact ⟨h1, h2⟩
  | cons e rest ih =>
      have hw := handleWheel_scale_mem s e.1 e.2.1 e.2.2 h1 h2
      simpa [runWheelEvents] using ih (handleWheel s e.1 e.2.1 e.2.2) hw.1 hw.2

/-- C2: after every sequence of wheel-zoom events starting from the
initial state (`scale = 1`), the scale stays within `[0.1, 50]`: each zoom
clamps `scale + direction * 0.1 * scale` to that interval, so the scale
never reaches zero or grows without bound. -/
theorem scale_clamped_after_wheel_sequence (evs : List (ℚ × ℚ × ℚ)) :
    1/10 ≤ (runWheelEvents initState evs).scale ∧
    (runWheelEvents initState evs).scale ≤ 50 :=
  runWheelEvents_scale_mem evs initState (by norm_num [initState]) (by norm_num [initState])

/-- Counterexample for C3: on the drop payload `["a.txt", "b.png"]` the
first valid path of the list is `b.png`, yet the handler forwards
nothing, because it only ever inspects `paths[0]`. -/
theorem handleDrop_not_firstValid_counterexample :
    handleDrop ["a.txt", "b.png"] = none ∧
    firstValidPath ["a.txt", "b.png"] = some "b.png" := by
  constructor
  · decide
  · decide

/-- C3 (amended): a load request is forwarded exactly when the first path
of the dropped list is valid, and then for that first path only; later
paths never trigger a load, even when valid. In particular dropping
`["a.png", "b.png"]` forwards only `a.png`. -/
theorem handleDrop_forwards_head_only :
    (∀ (paths : List String) (fp : String),
        handleDrop paths = some fp ↔
          (paths.head? = some fp ∧ isValidImagePath fp = true)) ∧
    handleDrop ["a.png", "b.png"] = some "a.png" := by
  constructor
  · intro paths fp
    cases paths with
    | nil => simp [handleDrop]
    | cons p rest =>
        simp only [handleDrop, List.head?]
        by_cases h : isValidImagePath p = true
        · rw [if_pos h]
          constructor
          · intro hpf
            have hp : p = fp := Option.some.inj hpf
            subst hp
            exact ⟨rfl, h⟩
          · intro hc
            exact hc.1
        · rw [if_neg h]
          constructor
          · intro hpf
            exact Option.noConfusion hpf
          · intro hc
            have hp : p = fp := Option.some.inj hc.1
            subst hp
            exact absurd hc.2 h
  · decide

/-- Counterexample for C4: from a state with `scale = 2`,
`translate = (3,4)` and divider position 70, the close action
(`resetStores`) does not restore `scale = 1`, `translate = (0,0)`,
`position = 50`. -/
theorem resetStores_counterexample :
    ¬ ((resetStores exLoadedState).originalImageInfo = none ∧
       (resetStores exLoadedState).optimizationResult = none ∧
       (resetStores exLoadedState).scale = 1 ∧
       (resetStores exLoadedState).translateX = 0 ∧
       (resetStores exLoadedState).translateY = 0 ∧
       (resetStores exLoadedState).sliderPosition = JSNum.num 50) := by
  decide

/-- C4 (amended): the close/reset-image action clears both surfaces and
the status flags, but leaves the Transform Model and the Reveal Controller
untouched: scale, translate and divider position keep their prior values
(they are reset only when the next image finishes loading, via
`resetView`). -/
theorem resetStores_clears_stores_only (s : ViewerState) :
    (resetStores s).originalImageInfo = none ∧
    (resetStores s).optimizationResult = none ∧
    (resetStores s).isProcessing = false ∧
    (resetStores s).isLoading = false ∧
    (resetStores s).scale = s.scale ∧
    (resetStores s).translateX = s.translateX ∧
    (resetStores s).translateY = s.translateY ∧
    (resetStores s).sliderPosition = s.sliderPosition := by
  simp [resetStores]

/-- Counterexample for C5: with the original surface loaded and the
processed surface absent, a pointer-down outside the divider's hit region
leaves the state unchanged — in particular no transition to Panning. -/
theorem pan_original_only_counterexample :
    handleMouseDown exOriginalOnlyState false 10 10 0 800 = exOriginalOnlyState ∧
    (handleMouseDown exOriginalOnlyState false 10 10 0 800).isPanning = false := by
  constructor
  · decide
  · decide

/-- C5 (amended): a pointer-down outside the divider's hit region starts
panning only when both surfaces are loaded; when the processed surface is
absent the interaction router stays in Idle (the state is unchanged). -/
theorem pan_requires_both_surfaces :
    (∀ (s : ViewerState) (x y l w : ℚ), s.optimizationResult = none →
        handleMouseDown s false x y l w = s) ∧
    (∀ (s : ViewerState) (x y l w : ℚ),
        s.originalImageInfo.isSome = true → s.optimizationResult.isSome = true →
        (handleMouseDown s false x y l w).isPanning = true) := by
  constructor
  · intro s x y l w h
    simp [handleMouseDown, h]
  · intro s x y l w h1 h2
    simp [handleMouseDown, h1, h2]

/-- Witness for C5 (amended): evaluated with the processed surface absent
(state unchanged) and with both surfaces present (panning starts). -/
theorem pan_requires_both_surfaces_witness :
    handleMouseDown exOriginalOnlyState false 10 10 0 800 = exOriginalOnlyState ∧
    (handleMouseDown exLoadedState false 10 10 0 800).isPanning = true :=
  ⟨pan_requires_both_surfaces.1 exOriginalOnlyState 10 10 0 800 rfl,
   pan_requires_both_surfaces.2 exLoadedState 10 10 0 800 rfl rfl⟩

/-- C6: the right-click handler suppresses the default context menu and
always yields `scale = 1`, `translateX = 0`, `translateY = 0`,
`position = 50`, regardless of the prior state. -/
theorem contextMenu_always_resets (s : ViewerState) :
    (handleContextMenu s).1.scale = 1 ∧
    (handleContextMenu s).1.translateX = 0 ∧
    (handleContextMenu s).1.translateY = 0 ∧
    (handleContextMenu s).1.sliderPosition = JSNum.num 50 ∧
    (handleContextMenu s).2 = true := by
  simp [handleContextMenu, resetView]

/-- C7: for positive container width the code's divider-position
computation agrees with the spec contract
`clamp(((pointerScreenX - containerLeft) / containerWidth) * 100, 0, 100)`;
it is idempotent as a state transformer and monotone in the pointer's X;
and width 800, left 0, pointer 200 yields position 25. -/
theorem setFromPointer_contract :
    (∀ x l w : ℚ, 0 < w →
        jsSliderPos x l w = JSNum.num (setFromPointerSpec x l w)) ∧
    (∀ (s : ViewerState) (x l w : ℚ),
        updateSliderPosition (updateSliderPosition s x l w) x l w
          = updateSliderPosition s x l w) ∧
    (∀ x1 x2 l w : ℚ, 0 < w → x1 ≤ x2 →
        setFromPointerSpec x1 l w ≤ setFromPointerSpec x2 l w) ∧
    jsSliderPos 200 0 800 = JSNum.num 25 := by
  refine ⟨?_, ?_, ?_, ?_⟩
  · intro x l w hw
    simp [jsSliderPos, jsDivQ, jsMul, jsMin, jsMax, setFromPointerSpec, hw.ne']
  · intro s x l w
    rfl
  · intro x1 x2 l w hw h
    unfold setFromPointerSpec
    gcongr
  · norm_num [jsSliderPos, jsDivQ, jsMul, jsMin, jsMax, min_def, max_def]

/-- Witness for C7: the contract and monotonicity evaluated at container
width 800, container left 0, pointers 200 and 300. -/
theorem setFromPointer_contract_witness :
    jsSliderPos 200 0 800 = JSNum.num (setFromPointerSpec 200 0 800) ∧
    setFromPointerSpec 200 0 800 ≤ setFromPointerSpec 300 0 800 :=
  ⟨setFromPointer_contract.1 200 0 800 (by norm_num),
   setFromPointer_contract.2.2.1 200 300 0 800 (by norm_num) (by norm_num)⟩

/-- Counterexample for C8: with container width 0 and the pointer exactly
at the container's left edge (`pointerScreenX - containerLeft = 0`), the
computed reveal position is NaN (JavaScript evaluates `0/0` to NaN and
`Math.max(0, Math.min(100, NaN))` to NaN), not a clamped bound. -/
theorem sliderPos_zero_width_nan_counterexample :
    jsSliderPos 0 0 0 = JSNum.nan := by
  norm_num [jsSliderPos, jsDivQ, jsMul, jsMin, jsMax]

/-- C8 (amended): with container width 0 the computed reveal position is
clamped to the nearest bound only when the pointer is off the container's
left edge — 100 when strictly to the right, 0 when strictly to the left —
while a pointer exactly at the left edge produces NaN, an undefined
value. -/
theorem sliderPos_zero_width_clamps_except_at_left (x l : ℚ) :
    (l < x → jsSliderPos x l 0 = JSNum.num 100) ∧
    (x < l → jsSliderPos x l 0 = JSNum.num 0) ∧
    (x = l → jsSliderPos x l 0 = JSNum.nan) := by
  refine ⟨?_, ?_, ?_⟩
  · intro h
    norm_num [jsSliderPos, jsDivQ, jsMul, jsMin, jsMax, sub_pos.mpr h]
  · intro h
    have h1 : ¬ (0 < x - l) := by linarith
    have h2 : x - l < 0 := by linarith
    norm_num [jsSliderPos, jsDivQ, jsMul, jsMin, jsMax, h1, h2]
  · intro h
    subst h
    norm_num [jsSliderPos, jsDivQ, jsMul, jsMin, jsMax]

/-- Witness for C8 (amended): evaluated at width 0 with the pointer right
of, left of, and exactly at the container's left edge. -/
theorem sliderPos_zero_width_witness :
    jsSliderPos 5 0 0 = JSNum.num 100 ∧
    jsSliderPos (-5) 0 0 = JSNum.num 0 ∧
    jsSliderPos 7 7 0 = JSNum.nan :=
  ⟨(sliderPos_zero_width_clamps_except_at_left 5 0).1 (by norm_num),
   (sliderPos_zero_width_clamps_except_at_left (-5) 0).2.1 (by norm_num),
   (sliderPos_zero_width_clamps_except_at_left 7 7).2.2 rfl⟩

/-- C9: path validation accepts a path exactly when its lower-cased form
ends with one of the allow-listed extensions `.png`, `.jpg`, `.jpeg`,
`.webp`, `.gif`, `.bmp`; in particular `photo.TIFF` is rejected and
`photo.PNG` is accepted. -/
theorem isValidImagePath_allowlist :
    (∀ p : String, isValidImagePath p = true ↔
        (jsEndsWith (jsToLowerCase p) ".png" = true ∨
         jsEndsWith (jsToLowerCase p) ".jpg" = true ∨
         jsEndsWith (jsToLowerCase p) ".jpeg" = true ∨
         jsEndsWith (jsToLowerCase p) ".webp" = true ∨
         jsEndsWith (jsToLowerCase p) ".gif" = true ∨
         jsEndsWith (jsToLowerCase p) ".bmp" = true)) ∧
    isValidImagePath "photo.TIFF" = false ∧
    isValidImagePath "photo.PNG" = true := by
  refine ⟨?_, ?_, ?_⟩
  · intro p
    simp [isValidImagePath, validExtensions]
  · decide
  · decide

/-- C10: a wheel-zoom call whose clamped new scale equals the current
scale (the scale already sits at the bound toward which the zoom moves)
leaves the entire transform unchanged: scale, translateX and translateY
all retain their previous values, because
`cursorX - ((cursorX - translateX) / scale) * newScale = translateX` when
`newScale = scale`. -/
theorem applyZoom_noop_when_scale_clamped :
    ∀ (s : ViewerState) (x y d : ℚ),
      max (1/10) (min (s.scale + (if d < 0 then (1:ℚ) else -1) * (1/10) * s.scale) 50)
          = s.scale →
      (applyZoom s x y d).scale = s.scale ∧
      (applyZoom s x y d).translateX = s.translateX ∧
      (applyZoom s x y d).translateY = s.translateY := by
  intro s x y d h
  have hge : (1:ℚ)/10 ≤ s.scale := by
    rw [← h]
    exact le_max_left _ _
  have hne : s.scale ≠ 0 := by
    intro h0
    rw [h0] at hge
    norm_num at hge
  refine ⟨?_, ?_, ?_⟩
  · simp only [applyZoom]
    exact h
  · simp only [applyZoom]
    rw [h, div_mul_cancel₀ _ hne]
    ring
  · simp only [applyZoom]
    rw [h, div_mul_cancel₀ _ hne]
    ring

/-- Witness for C10: at the upper bound `scale = 50`, a zoom-in leaves
scale and translate unchanged. -/
theorem applyZoom_noop_when_scale_clamped_witness :
    (applyZoom exUpperBoundState 7 9 (-1)).scale = exUpperBoundState.scale ∧
    (applyZoom exUpperBoundState 7 9 (-1)).translateX = exUpperBoundState.translateX ∧
    (applyZoom exUpperBoundState 7 9 (-1)).translateY = exUpperBoundState.translateY :=
  applyZoom_noop_when_scale_clamped exUpperBoundState 7 9 (-1) (by norm_num [exUpperBoundState, initState])
